import Mathlib

/-!
Verification of the ReVK Vulkan application framework (mnrn/ReVK).

This file gives a shallow embedding, in Lean 4, of the control flow and
observable state of the framework's core: the frame loop and swapchain
lifecycle implemented in src/Core/VK/VkBase.cc, the device bootstrap in the
same file, and the JSON config loader in src/Common/Json.h.

Modelling conventions:
- Vulkan handles are modelled as natural numbers (0 plays the role of
  VK_NULL_HANDLE).
- Each Vulkan API call made by the framework is recorded as an Event in a
  trace carried by the state, so temporal claims become statements about
  the order and multiplicity of events in the trace.
- Results of driver calls (acquire, present, submit) and the window's
  framebuffer-size polls are inputs, collected in an Env record.
- A fatal VK_CHECK_RESULT / BOOST_ASSERT failure is an explicit Outcome
  constructor (the process terminates there), and the potentially
  unbounded busy-wait on the framebuffer size is run on explicit fuel,
  with fuel exhaustion an explicit constructor as well.
- The Swapchain class implementation is not part of the sources at hand
  (only its call sites in VkBase.cc are); its members are therefore
  modelled from the spec, and each such definition is marked in its doc
  comment.
-/

namespace ReVK

/-- Result codes of the Vulkan calls whose values VkBase.cc inspects:
success, the two staleness codes handled by the resize path, and a
representative unrecoverable code (anything else trips VK_CHECK_RESULT). -/
inductive VkResult where
  | success
  | errOutOfDateKHR
  | suboptimalKHR
  | errDeviceLost
deriving DecidableEq, Repr

/-- Observable actions of VkBase, recorded in order in the trace. -/
inductive Event where
  | createInstance
  | enumeratePhysicalDevices (n : Nat)
  | createLogicalDevice
  | getDeviceQueue
  | createSemaphore (handle : Nat)
  | destroySemaphore (handle : Nat)
  | createCommandPool
  | createFence (n : Nat)
  | createPipelineCache
  | setupRenderPass
  | acquireNextImage (res : VkResult)
  | queueSubmit
  | queuePresent (res : VkResult)
  | queueWaitIdle
  | deviceWaitIdle
  | pollFramebufferSize (w h : Nat)
  | waitEvents
  | swapchainCreate (w h : Nat)
  | destroyDepthStencil
  | setupDepthStencil
  | destroyFramebuffers (n : Nat)
  | setupFramebuffers (n : Nat)
  | destroyCommandBuffers (n : Nat)
  | createCommandBuffers (n : Nat)
  | buildCommandBuffers
  | viewChanged
deriving DecidableEq, Repr

/-- Surface capabilities consulted by swapchain creation (part of the
environment: they come from the driver). -/
structure SurfaceCaps where
  minImageCount : Nat
  maxImageCount : Nat
  minExtentW : Nat
  maxExtentW : Nat
  minExtentH : Nat
  maxExtentH : Nat
deriving DecidableEq, Repr

/-- The swapchain state visible to VkBase.cc: the image and view counts and
the current extent. -/
structure Swapchain where
  images : Nat
  views : Nat
  extentW : Nat
  extentH : Nat
deriving DecidableEq, Repr

/-- Modelled from the spec: the Swapchain class implementation is not among
the sources (only its call sites in VkBase.cc are). Per spec section 4.1,
Swapchain::Create clamps the requested width and height to the surface's
min/max extent and requests an image count of (min supported + 1) capped at
max supported; per the spec's data-model invariant, one view is created per
image. -/
def Swapchain.create (caps : SurfaceCaps) (w h : Nat) : Swapchain :=
  let n := min (caps.minImageCount + 1) caps.maxImageCount
  { images := n
    views := n
    extentW := max caps.minExtentW (min w caps.maxExtentW)
    extentH := max caps.minExtentH (min h caps.maxExtentH) }

/-- One framebuffer, as created by VkBase::SetupFramebuffers: it records
the render pass it was created against, the extent, and the swapchain color
view bound as attachment 0. -/
structure Framebuffer where
  renderPass : Nat
  width : Nat
  height : Nat
  colorView : Nat
deriving DecidableEq, Repr

/-- The fields of VkSubmitInfo that VkBase.cc writes: CreateSemaphores sets
the wait/signal/stage fields once, RenderFrame rewrites the command-buffer
count and pointer every frame. The pointer fields hold a semaphore handle
and a draw-command-buffer index respectively. -/
structure SubmitInfo where
  waitSemaphoreCount : Nat
  pWaitSemaphores : Nat
  signalSemaphoreCount : Nat
  pSignalSemaphores : Nat
  pWaitDstStageMask : Nat
  commandBufferCount : Nat
  pCommandBuffers : Nat
deriving DecidableEq, Repr

/-- The mutable state of a VkBase object, plus the event trace.
drawCmdBuffers and waitFences are kept as counts; pollIdx is the cursor
into the environment's framebuffer-size poll stream. -/
structure VkState where
  swapchain : Swapchain
  renderPass : Nat
  framebuffers : List Framebuffer
  drawCmdBuffers : Nat
  waitFences : Nat
  currentBuffer : Nat
  isFramebufferResized : Bool
  presentComplete : Nat
  renderComplete : Nat
  submitInfo : SubmitInfo
  pollIdx : Nat
  trace : List Event
deriving DecidableEq, Repr

/-- Environment of one frame: driver capabilities and results, the
physical-device list with its scoring function, the configured initial
extent, the window's framebuffer-size poll stream, and the fuel bounding
the resize busy-wait. -/
structure Env where
  caps : SurfaceCaps
  devices : List Nat
  score : Nat → ℚ
  configWidth : Nat
  configHeight : Nat
  polls : Nat → Nat × Nat
  fuel : Nat
  acquireRes : VkResult
  acquireIdx : Nat
  submitRes : VkResult
  presentRes : VkResult

/-- Append one event to the trace. -/
def emit (st : VkState) (e : Event) : VkState :=
  { st with trace := st.trace ++ [e] }

/-- Handle of the presentComplete semaphore. -/
def presentCompleteHandle : Nat := 1

/-- Handle of the renderComplete semaphore. -/
def renderCompleteHandle : Nat := 2

/-- VK_PIPELINE_STAGE_COLOR_ATTACHMENT_OUTPUT_BIT (0x00000400), the stage
mask the submit info waits at (per the spec, the acquisition semaphore is
waited on at the color-attachment-output stage). -/
def colorAttachmentOutputStage : Nat := 1024

/-- Handle of the render pass created by SetupRenderPass. -/
def renderPassHandle : Nat := 3

/-- VkBase::CreateSemaphores: create the presentComplete and renderComplete
semaphores and fill in the reusable submit-info template (stage mask, one
wait semaphore = presentComplete, one signal semaphore = renderComplete). -/
def CreateSemaphores (st : VkState) : VkState :=
  let st := emit { st with presentComplete := presentCompleteHandle }
      (.createSemaphore presentCompleteHandle)
  let st := emit { st with renderComplete := renderCompleteHandle }
      (.createSemaphore renderCompleteHandle)
  { st with
    submitInfo :=
      { waitSemaphoreCount := 1
        pWaitSemaphores := presentCompleteHandle
        signalSemaphoreCount := 1
        pSignalSemaphores := renderCompleteHandle
        pWaitDstStageMask := colorAttachmentOutputStage
        commandBufferCount := 0
        pCommandBuffers := 0 } }

/-- VkBase::CreateSwapchain: delegates to Swapchain::Create. -/
def CreateSwapchain (caps : SurfaceCaps) (w h : Nat) (st : VkState) : VkState :=
  emit { st with swapchain := Swapchain.create caps w h } (.swapchainCreate w h)

/-- VkBase::CreateCommandBuffers: resize drawCmdBuffers to the swapchain
image count and allocate that many primary command buffers. -/
def CreateCommandBuffers (st : VkState) : VkState :=
  emit { st with drawCmdBuffers := st.swapchain.images }
    (.createCommandBuffers st.swapchain.images)

/-- VkBase::DestroyCommandBuffers: free the current draw command buffers
(the count freed is the current drawCmdBuffers size). -/
def DestroyCommandBuffers (st : VkState) : VkState :=
  emit st (.destroyCommandBuffers st.drawCmdBuffers)

/-- VkBase::CreateFence: one signaled fence per draw command buffer. -/
def CreateFence (st : VkState) : VkState :=
  emit { st with waitFences := st.drawCmdBuffers } (.createFence st.drawCmdBuffers)

/-- VkBase::SetupDepthStencil: create the depth/stencil image and view at
the swapchain extent. -/
def SetupDepthStencil (st : VkState) : VkState :=
  emit st .setupDepthStencil

/-- VkBase::DestroyDepthStencil: destroy the depth/stencil view, image and
memory. -/
def DestroyDepthStencil (st : VkState) : VkState :=
  emit st .destroyDepthStencil

/-- VkBase::SetupRenderPass: create the single render pass. -/
def SetupRenderPass (st : VkState) : VkState :=
  emit { st with renderPass := renderPassHandle } .setupRenderPass

/-- VkBase::SetupFramebuffers: one framebuffer per swapchain view, all
sharing the same render pass and the swapchain extent, with view i bound
as the color attachment of framebuffer i. -/
def SetupFramebuffers (st : VkState) : VkState :=
  let fbs := (List.range st.swapchain.views).map fun i =>
    { renderPass := st.renderPass
      width := st.swapchain.extentW
      height := st.swapchain.extentH
      colorView := i : Framebuffer }
  emit { st with framebuffers := fbs } (.setupFramebuffers st.swapchain.views)

/-- VkBase::BuildCommandBuffers: virtual hook re-recording all draw command
buffers (a no-op in the base class; subclasses record the draws). -/
def BuildCommandBuffers (st : VkState) : VkState :=
  emit st .buildCommandBuffers

/-- VkBase::ViewChanged: virtual post-resize notification hook. -/
def ViewChanged (st : VkState) : VkState :=
  emit st .viewChanged

/-- The busy-wait loop of VkBase::ResizeWindow: while the polled size is
zero in either dimension, poll glfwGetFramebufferSize again and pump
events. Run on fuel; on exhaustion the first component is none (the real
loop blocks indefinitely). -/
def sizeWaitLoop (polls : Nat → Nat × Nat) :
    Nat → Nat → Nat → VkState → Option (Nat × Nat) × VkState
  | fuel, w, h, st =>
    if w ≠ 0 ∧ h ≠ 0 then (some (w, h), st)
    else
      match fuel with
      | 0 => (none, st)
      | fuel + 1 =>
        let p := polls st.pollIdx
        let st := emit { st with pollIdx := st.pollIdx + 1 }
            (.pollFramebufferSize p.1 p.2)
        let st := emit st .waitEvents
        sizeWaitLoop polls fuel p.1 p.2 st

/-- Result of VkBase::ResizeWindow: done with the new state, or blocked in
the busy-wait (fuel exhausted; the real loop would still be spinning). -/
inductive RWOut where
  | done (st : VkState)
  | blocked (st : VkState)
deriving DecidableEq, Repr

/-- The tail of VkBase::ResizeWindow after the busy-wait has produced a
nonzero size (w, h): device idle wait, swapchain recreation, depth/stencil
and framebuffer recreation, command-buffer recreation and re-recording,
second device idle wait, ViewChanged hook. -/
def resizeRest (caps : SurfaceCaps) (w h : Nat) (st : VkState) : VkState :=
  let st := emit st .deviceWaitIdle
  let st := emit { st with swapchain := Swapchain.create caps w h }
      (.swapchainCreate w h)
  let st := DestroyDepthStencil st
  let st := SetupDepthStencil st
  let st := emit st (.destroyFramebuffers st.framebuffers.length)
  let st := SetupFramebuffers st
  let st := DestroyCommandBuffers st
  let st := CreateCommandBuffers st
  let st := BuildCommandBuffers st
  let st := emit st .deviceWaitIdle
  ViewChanged st

/-- VkBase::ResizeWindow: poll the framebuffer size, busy-wait until it is
nonzero in both dimensions, then run the recreation tail. Note that the
function does not touch isFramebufferResized. -/
def ResizeWindow (env : Env) (st : VkState) : RWOut :=
  let p := env.polls st.pollIdx
  let st := emit { st with pollIdx := st.pollIdx + 1 }
      (.pollFramebufferSize p.1 p.2)
  match sizeWaitLoop env.polls env.fuel p.1 p.2 st with
  | (none, st) => .blocked st
  | (some (w, h), st) => .done (resizeRest env.caps w h st)

/-- Outcome of one frame-loop entry point: normal return, process
termination at a failed VK_CHECK_RESULT, or stuck in the resize busy-wait
(fuel exhausted). The state at that point is carried in each case. -/
inductive Outcome where
  | ok (st : VkState)
  | fatal (st : VkState)
  | blocked (st : VkState)
deriving DecidableEq, Repr

/-- State carried by an Outcome, whichever constructor applies. -/
def Outcome.state : Outcome → VkState
  | .ok st => st
  | .fatal st => st
  | .blocked st => st

/-- Modelled from the spec: Swapchain::AcquiredNextImage is not among the
sources (only its call site is). Per spec section 4.1 it requests the next
presentable image index, signaling the given semaphore, and returns a
tri-state status; the index output parameter (currentBuffer) is written
when an image was actually acquired (success or suboptimal). -/
def AcquiredNextImage (env : Env) (st : VkState) : VkResult × VkState :=
  let st := emit st (.acquireNextImage env.acquireRes)
  let st :=
    if env.acquireRes = .success ∨ env.acquireRes = .suboptimalKHR then
      { st with currentBuffer := env.acquireIdx }
    else st
  (env.acquireRes, st)

/-- Modelled from the spec: Swapchain::QueuePresent is not among the
sources (only its call site is). Per spec section 4.1 it submits the image
for presentation, waiting on the given semaphore, and returns the same
tri-state status as acquisition. -/
def QueuePresent (env : Env) (st : VkState) : VkResult × VkState :=
  (env.presentRes, emit st (.queuePresent env.presentRes))

/-- VkBase::PrepareFrame: acquire the next image; on out-of-date or
suboptimal run ResizeWindow and return; otherwise VK_CHECK_RESULT the
status (fatal unless success). -/
def PrepareFrame (env : Env) (st : VkState) : Outcome :=
  let r := AcquiredNextImage env st
  if r.1 = .errOutOfDateKHR ∨ r.1 = .suboptimalKHR then
    match ResizeWindow env r.2 with
    | .done st => .ok st
    | .blocked st => .blocked st
  else if r.1 = .success then .ok r.2
  else .fatal r.2

/-- VkBase::SubmitFrame: present; if the status is out-of-date or
suboptimal or the external resize flag is set, clear the flag and run
ResizeWindow and return; otherwise VK_CHECK_RESULT the status and wait for
the queue to go idle. -/
def SubmitFrame (env : Env) (st : VkState) : Outcome :=
  let r := QueuePresent env st
  if r.1 = .errOutOfDateKHR ∨ r.1 = .suboptimalKHR ∨ r.2.isFramebufferResized then
    match ResizeWindow env { r.2 with isFramebufferResized := false } with
    | .done st => .ok st
    | .blocked st => .blocked st
  else if r.1 = .success then .ok (emit r.2 .queueWaitIdle)
  else .fatal r.2

/-- VkBase::RenderFrame: PrepareFrame, then point the submit info at the
draw command buffer for the current image, vkQueueSubmit it (checked), and
SubmitFrame. Note that the early return inside PrepareFrame only leaves
PrepareFrame: RenderFrame continues with the submission regardless. -/
def RenderFrame (env : Env) (st : VkState) : Outcome :=
  match PrepareFrame env st with
  | .ok st =>
    let st := { st with
      submitInfo := { st.submitInfo with
        commandBufferCount := 1
        pCommandBuffers := st.currentBuffer } }
    let st := emit st .queueSubmit
    if env.submitRes = .success then SubmitFrame env st
    else .fatal st
  | out => out

/-- VkBase::OnResized: the GLFW framebuffer-size callback sets the external
resize flag on the application object. -/
def OnResized (st : VkState) : VkState :=
  { st with isFramebufferResized := true }

/-- Score threshold of VkBase::SelectPhysicalDevice (the source compares
the best score against the float literal 0.0000001f; scores are modelled as
rationals). -/
def scoreThreshold : ℚ := mkRat 1 10000000

/-- VkBase::SelectPhysicalDevice: assert at least one device, score every
device into a multimap, assert the best score reaches the threshold, and
return the best-scoring device (on equal scores, std::multimap iteration
order makes rbegin the last-inserted of the maximal ones; the fold below
picks the same element). The two BOOST_ASSERTs are modelled as none. -/
def SelectPhysicalDevice (devices : List Nat) (score : Nat → ℚ) : Option Nat :=
  match devices with
  | [] => none
  | d :: ds =>
    let best := ds.foldl (fun b x => if score b ≤ score x then x else b) d
    if scoreThreshold ≤ score best then some best else none

/-- VkBase::OnPostInit: swapchain at the configured extent, command pool,
command buffers, fences, depth/stencil, render pass, pipeline cache,
framebuffers, in this order. -/
def OnPostInit (env : Env) (st : VkState) : VkState :=
  let st := CreateSwapchain env.caps env.configWidth env.configHeight st
  let st := emit st .createCommandPool
  let st := CreateCommandBuffers st
  let st := CreateFence st
  let st := SetupDepthStencil st
  let st := SetupRenderPass st
  let st := emit st .createPipelineCache
  SetupFramebuffers st

/-- The zero-initialised submit info (Initializer::SubmitInfo). -/
def SubmitInfo.zero : SubmitInfo :=
  { waitSemaphoreCount := 0
    pWaitSemaphores := 0
    signalSemaphoreCount := 0
    pSignalSemaphores := 0
    pWaitDstStageMask := 0
    commandBufferCount := 0
    pCommandBuffers := 0 }

/-- Freshly constructed VkBase object, before OnInit. -/
def VkState.empty : VkState :=
  { swapchain := { images := 0, views := 0, extentW := 0, extentH := 0 }
    renderPass := 0
    framebuffers := []
    drawCmdBuffers := 0
    waitFences := 0
    currentBuffer := 0
    isFramebufferResized := false
    presentComplete := 0
    renderComplete := 0
    submitInfo := SubmitInfo.zero
    pollIdx := 0
    trace := [] }

/-- VkBase::OnInit: create the instance, enumerate and select a physical
device (the two assertions in SelectPhysicalDevice terminate the process,
modelled as an error carrying the trace up to that point), create the
logical device and fetch the graphics queue, create the semaphores and the
submit-info template, then OnPostInit. -/
def OnInit (env : Env) : Except (List Event) VkState :=
  let st := emit VkState.empty .createInstance
  let st := emit st (.enumeratePhysicalDevices env.devices.length)
  match SelectPhysicalDevice env.devices env.score with
  | none => .error st.trace
  | some _ =>
    let st := emit st .createLogicalDevice
    let st := emit st .getDeviceQueue
    let st := CreateSemaphores st
    .ok (OnPostInit env st)

/-- An opaque parse failure raised by the JSON library (nlohmann's
operator>> throws on malformed input). -/
inductive ParseErr where
  | malformed
deriving DecidableEq, Repr

/-- A parsed JSON document, abstract (the JSON grammar lives in the
external nlohmann library, not in this repository). -/
def JsonDoc : Type := Nat

instance : DecidableEq JsonDoc := fun a b => Nat.decEq a b

/-- A file system, abstractly: for each path, either no readable file, or a
file whose contents either parse to a document or are malformed. -/
def FileSys : Type := String → Option (Except ParseErr JsonDoc)

/-- Json::Parse (src/Common/Json.h): open the file; if the stream is not
good, return nullopt; otherwise stream-parse the contents into a json
value and return it. A parse failure inside operator>> propagates as an
exception (the Except error), not as a return value. -/
def Json.Parse (fs : FileSys) (filepath : String) :
    Except ParseErr (Option JsonDoc) :=
  match fs filepath with
  | none => .ok none
  | some (.error e) => .error e
  | some (.ok j) => .ok (some j)

/-- Example surface capabilities used by concrete runs: between 2 and 8
images, extents clamped to [1, 4096] in both dimensions. -/
def capsEx : SurfaceCaps :=
  { minImageCount := 2
    maxImageCount := 8
    minExtentW := 1
    maxExtentW := 4096
    minExtentH := 1
    maxExtentH := 4096 }

/-- Baseline concrete environment: one physical device of score 1, an
800 times 600 window whose polls always report that size, and all driver
calls succeeding. -/
def envBase : Env :=
  { caps := capsEx
    devices := [7]
    score := fun _ => mkRat 1 1
    configWidth := 800
    configHeight := 600
    polls := fun _ => (800, 600)
    fuel := 4
    acquireRes := .success
    acquireIdx := 0
    submitRes := .success
    presentRes := .success }

/-- The state right after a successful OnInit in the baseline
environment. -/
def stInit : VkState := ((OnInit envBase).toOption).getD VkState.empty

/-- Events the resize busy-wait may emit: size polls and event pumping. -/
def isPollEvent : Event → Bool
  | .pollFramebufferSize _ _ => true
  | .waitEvents => true
  | _ => false

/-- Recogniser for swapchain creation events. -/
def isSwapchainCreate : Event → Bool
  | .swapchainCreate _ _ => true
  | _ => false

/-- Recogniser for semaphore creation events. -/
def isCreateSemaphore : Event → Bool
  | .createSemaphore _ => true
  | _ => false

/-- Recogniser for semaphore destruction events. -/
def isDestroySemaphore : Event → Bool
  | .destroySemaphore _ => true
  | _ => false

/-- Every field of the state except the poll cursor and the trace: the
busy-wait changes nothing else. -/
def coreState (st : VkState) :=
  (st.swapchain, st.renderPass, st.framebuffers, st.drawCmdBuffers,
   st.waitFences, st.currentBuffer, st.isFramebufferResized,
   st.presentComplete, st.renderComplete, st.submitInfo)

/-- The semaphore handles and the wait/signal/stage fields of the submit
info: the data created once by CreateSemaphores and reused every frame. -/
def semState (st : VkState) :=
  (st.presentComplete, st.renderComplete,
   st.submitInfo.waitSemaphoreCount, st.submitInfo.pWaitSemaphores,
   st.submitInfo.signalSemaphoreCount, st.submitInfo.pSignalSemaphores,
   st.submitInfo.pWaitDstStageMask)

/-- State carried by an RWOut, whichever constructor applies. -/
def RWOut.state : RWOut → VkState
  | .done st => st
  | .blocked st => st

/-- Whether a ResizeWindow run completed. -/
def RWOut.isDone : RWOut → Bool
  | .done _ => true
  | .blocked _ => false

/-- The exact event sequence appended by the recreation tail of
ResizeWindow. -/
def resizeRestEvents (caps : SurfaceCaps) (w h fbCount cmdCount : Nat) :
    List Event :=
  [.deviceWaitIdle, .swapchainCreate w h, .destroyDepthStencil,
   .setupDepthStencil, .destroyFramebuffers fbCount,
   .setupFramebuffers (Swapchain.create caps w h).views,
   .destroyCommandBuffers cmdCount,
   .createCommandBuffers (Swapchain.create caps w h).images,
   .buildCommandBuffers, .deviceWaitIdle, .viewChanged]

/-- The state VkBase::OnInit has built just before device selection. -/
def initPre (n : Nat) : VkState :=
  emit (emit VkState.empty .createInstance) (.enumeratePhysicalDevices n)

/-- The render-target invariant of the spec: one framebuffer per swapchain
image, one view per image, and every framebuffer created against the one
render pass. -/
def renderTargetsConsistent (st : VkState) : Prop :=
  st.framebuffers.length = st.swapchain.images ∧
  st.swapchain.images = st.swapchain.views ∧
  ∀ fb ∈ st.framebuffers, fb.renderPass = st.renderPass

/-- The command-buffer invariant of the spec: one draw command buffer per
swapchain image. -/
def commandBuffersConsistent (st : VkState) : Prop :=
  st.drawCmdBuffers = st.swapchain.images

/-- Environment in which acquisition reports the swapchain out of date. -/
def envOutOfDate : Env := { envBase with acquireRes := .errOutOfDateKHR }

/-- Environment in which no physical device is enumerated. -/
def envNoDevices : Env := { envBase with devices := [] }

/-- Environment in which the one device scores zero, below the
threshold. -/
def envLowScore : Env := { envBase with score := fun _ => mkRat 0 1 }

/-- A file system with one config file whose contents are malformed. -/
def fsBad : FileSys := fun p =>
  if p = "config.json" then some (.error .malformed) else none

/-- A file system with one well-formed config file. -/
def fsGood : FileSys := fun p =>
  if p = "config.json" then some (.ok (42 : Nat)) else none

theorem coreState_emit (st : VkState) (e : Event) :
    coreState (emit st e) = coreState st := rfl

theorem trace_emit (st : VkState) (e : Event) :
    (emit st e).trace = st.trace ++ [e] := rfl

/-- The busy-wait only advances the poll cursor and appends poll events to
the trace; every other field of the state is untouched, whether the loop
found a nonzero size or ran out of fuel. -/
theorem sizeWaitLoop_shape (polls : Nat → Nat × Nat) :
    ∀ fuel w h st, ∃ tail,
      coreState (sizeWaitLoop polls fuel w h st).2 = coreState st ∧
      (sizeWaitLoop polls fuel w h st).2.trace = st.trace ++ tail ∧
      ∀ e ∈ tail, isPollEvent e = true := by
  intro fuel
  induction fuel with
  | zero =>
    intro w h st
    refine ⟨[], ?_, ?_, by simp⟩ <;> rw [sizeWaitLoop] <;>
      by_cases hw : w ≠ 0 ∧ h ≠ 0 <;> simp [hw]
  | succ fuel ih =>
    intro w h st
    by_cases hw : w ≠ 0 ∧ h ≠ 0
    · refine ⟨[], ?_, ?_, by simp⟩ <;> rw [sizeWaitLoop] <;> simp [hw]
    · set p := polls st.pollIdx with hp
      set st2 : VkState := emit (emit { st with pollIdx := st.pollIdx + 1 }
          (.pollFramebufferSize p.1 p.2)) .waitEvents with hst2
      obtain ⟨tail, hcore, htr, hall⟩ := ih p.1 p.2 st2
      have hstep : sizeWaitLoop polls (fuel + 1) w h st =
          sizeWaitLoop polls fuel p.1 p.2 st2 := by
        rw [sizeWaitLoop]; simp [hw, hst2, emit]
      refine ⟨Event.pollFramebufferSize p.1 p.2 :: Event.waitEvents :: tail,
        ?_, ?_, ?_⟩
      · rw [hstep, hcore]; rfl
      · rw [hstep, htr, hst2]; simp [emit]
      · intro e he
        rw [List.mem_cons] at he
        rcases he with rfl | he
        · rfl
        rw [List.mem_cons] at he
        rcases he with rfl | he
        · rfl
        exact hall e he

/-- When the busy-wait returns a size, either the starting size was already
nonzero and is returned unchanged, or the starting size was degenerate and
the returned size is the first poll (from the current cursor) that is
nonzero in both dimensions, all earlier polls being zero in one. -/
theorem sizeWaitLoop_some (polls : Nat → Nat × Nat) :
    ∀ fuel w h st p st',
      sizeWaitLoop polls fuel w h st = (some p, st') →
      (w ≠ 0 ∧ h ≠ 0 ∧ p = (w, h)) ∨
      ((w = 0 ∨ h = 0) ∧ ∃ k, polls (st.pollIdx + k) = p ∧
        p.1 ≠ 0 ∧ p.2 ≠ 0 ∧
        ∀ j < k, (polls (st.pollIdx + j)).1 = 0 ∨ (polls (st.pollIdx + j)).2 = 0) := by
  intro fuel
  induction fuel with
  | zero =>
    intro w h st p st' hrun
    rw [sizeWaitLoop] at hrun
    by_cases hw : w ≠ 0 ∧ h ≠ 0
    · simp [hw] at hrun
      exact Or.inl ⟨hw.1, hw.2, hrun.1.symm⟩
    · simp [hw] at hrun
  | succ fuel ih =>
    intro w h st p st' hrun
    by_cases hw : w ≠ 0 ∧ h ≠ 0
    · rw [sizeWaitLoop] at hrun
      simp [hw] at hrun
      exact Or.inl ⟨hw.1, hw.2, hrun.1.symm⟩
    · have hwz : w = 0 ∨ h = 0 := by omega
      set q := polls st.pollIdx with hq
      set st2 : VkState := emit (emit { st with pollIdx := st.pollIdx + 1 }
          (.pollFramebufferSize q.1 q.2)) .waitEvents with hst2
      have hstep : sizeWaitLoop polls (fuel + 1) w h st =
          sizeWaitLoop polls fuel q.1 q.2 st2 := by
        rw [sizeWaitLoop]; simp [hw, hst2, emit]
      rw [hstep] at hrun
      have hidx : st2.pollIdx = st.pollIdx + 1 := rfl
      rcases ih q.1 q.2 st2 p st' hrun with ⟨h1, h2, h3⟩ | ⟨hz, k, hk, hp1, hp2, hbefore⟩
      · refine Or.inr ⟨hwz, 0, ?_, ?_, ?_, by omega⟩
        · simp [h3, ← hq]
        · simp [h3, h1]
        · simp [h3, h2]
      · refine Or.inr ⟨hwz, k + 1, ?_, hp1, hp2, ?_⟩
        · rw [hidx] at hk; rw [← hk]; ring_nf
        · intro j hj
          match j with
          | 0 =>
            simpa [hq] using hz
          | j + 1 =>
            have := hbefore j (by omega)
            rw [hidx] at this
            have harith : st.pollIdx + 1 + j = st.pollIdx + (j + 1) := by omega
            rwa [harith] at this

theorem resizeRest_swapchain (caps : SurfaceCaps) (w h : Nat) (st : VkState) :
    (resizeRest caps w h st).swapchain = Swapchain.create caps w h := rfl

theorem resizeRest_drawCmdBuffers (caps : SurfaceCaps) (w h : Nat) (st : VkState) :
    (resizeRest caps w h st).drawCmdBuffers = (Swapchain.create caps w h).images := rfl

theorem resizeRest_renderPass (caps : SurfaceCaps) (w h : Nat) (st : VkState) :
    (resizeRest caps w h st).renderPass = st.renderPass := rfl

theorem resizeRest_framebuffers (caps : SurfaceCaps) (w h : Nat) (st : VkState) :
    (resizeRest caps w h st).framebuffers =
      (List.range (Swapchain.create caps w h).views).map fun i =>
        { renderPass := st.renderPass
          width := (Swapchain.create caps w h).extentW
          height := (Swapchain.create caps w h).extentH
          colorView := i : Framebuffer } := rfl

theorem resizeRest_flag (caps : SurfaceCaps) (w h : Nat) (st : VkState) :
    (resizeRest caps w h st).isFramebufferResized = st.isFramebufferResized := rfl

theorem resizeRest_submitInfo (caps : SurfaceCaps) (w h : Nat) (st : VkState) :
    (resizeRest caps w h st).submitInfo = st.submitInfo := rfl

theorem resizeRest_presentComplete (caps : SurfaceCaps) (w h : Nat) (st : VkState) :
    (resizeRest caps w h st).presentComplete = st.presentComplete := rfl

theorem resizeRest_renderComplete (caps : SurfaceCaps) (w h : Nat) (st : VkState) :
    (resizeRest caps w h st).renderComplete = st.renderComplete := rfl

theorem resizeRest_currentBuffer (caps : SurfaceCaps) (w h : Nat) (st : VkState) :
    (resizeRest caps w h st).currentBuffer = st.currentBuffer := rfl

theorem resizeRest_waitFences (caps : SurfaceCaps) (w h : Nat) (st : VkState) :
    (resizeRest caps w h st).waitFences = st.waitFences := rfl

theorem resizeRest_trace (caps : SurfaceCaps) (w h : Nat) (st : VkState) :
    (resizeRest caps w h st).trace =
      st.trace ++ resizeRestEvents caps w h st.framebuffers.length
        st.drawCmdBuffers := by
  simp [resizeRest, resizeRestEvents, emit, DestroyDepthStencil,
    SetupDepthStencil, SetupFramebuffers, DestroyCommandBuffers,
    CreateCommandBuffers, BuildCommandBuffers, ViewChanged]

/-- Unfolding equation for ResizeWindow with the lets resolved. -/
theorem ResizeWindow_eq (env : Env) (st : VkState) :
    ResizeWindow env st =
      match sizeWaitLoop env.polls env.fuel
          (env.polls st.pollIdx).1 (env.polls st.pollIdx).2
          (emit { st with pollIdx := st.pollIdx + 1 }
            (.pollFramebufferSize (env.polls st.pollIdx).1
              (env.polls st.pollIdx).2)) with
      | (none, st2) => .blocked st2
      | (some (w, h), st2) => .done (resizeRest env.caps w h st2) := rfl

/-- Full characterisation of a completed ResizeWindow run: there is a
nonzero size (w0, h0) and a tail of poll events such that the new state is
the old one with the swapchain recreated at (w0, h0), the framebuffers and
draw command buffers rebuilt from the new swapchain, everything else
unchanged, and the trace extended by the polls followed by the exact
recreation sequence. -/
theorem ResizeWindow_done_shape (env : Env) (st st' : VkState)
    (h : ResizeWindow env st = .done st') :
    ∃ w0 h0 ptail,
      w0 ≠ 0 ∧ h0 ≠ 0 ∧
      (∀ e ∈ ptail, isPollEvent e = true) ∧
      st'.swapchain = Swapchain.create env.caps w0 h0 ∧
      st'.drawCmdBuffers = (Swapchain.create env.caps w0 h0).images ∧
      st'.framebuffers =
        ((List.range (Swapchain.create env.caps w0 h0).views).map fun i =>
          { renderPass := st.renderPass
            width := (Swapchain.create env.caps w0 h0).extentW
            height := (Swapchain.create env.caps w0 h0).extentH
            colorView := i : Framebuffer }) ∧
      st'.renderPass = st.renderPass ∧
      st'.submitInfo = st.submitInfo ∧
      st'.presentComplete = st.presentComplete ∧
      st'.renderComplete = st.renderComplete ∧
      st'.currentBuffer = st.currentBuffer ∧
      st'.waitFences = st.waitFences ∧
      st'.isFramebufferResized = st.isFramebufferResized ∧
      st'.trace = st.trace ++ ptail ++
        resizeRestEvents env.caps w0 h0 st.framebuffers.length
          st.drawCmdBuffers := by
  rw [ResizeWindow_eq] at h
  obtain ⟨tail, hcore, htr, hall⟩ := sizeWaitLoop_shape env.polls env.fuel
    (env.polls st.pollIdx).1 (env.polls st.pollIdx).2
    (emit { st with pollIdx := st.pollIdx + 1 }
      (.pollFramebufferSize (env.polls st.pollIdx).1 (env.polls st.pollIdx).2))
  rcases hloop : sizeWaitLoop env.polls env.fuel
      (env.polls st.pollIdx).1 (env.polls st.pollIdx).2
      (emit { st with pollIdx := st.pollIdx + 1 }
        (.pollFramebufferSize (env.polls st.pollIdx).1 (env.polls st.pollIdx).2))
    with ⟨r, st2⟩
  rw [hloop] at h hcore htr
  match r with
  | none => simp at h
  | some (w0, h0) =>
    simp only at h
    have hst' : st' = resizeRest env.caps w0 h0 st2 := by
      cases h; rfl
    have hnz : w0 ≠ 0 ∧ h0 ≠ 0 := by
      rcases sizeWaitLoop_some env.polls env.fuel
          (env.polls st.pollIdx).1 (env.polls st.pollIdx).2
          (emit { st with pollIdx := st.pollIdx + 1 }
            (.pollFramebufferSize (env.polls st.pollIdx).1 (env.polls st.pollIdx).2))
          (w0, h0) st2 hloop with
        ⟨hw, hh, hpe⟩ | ⟨_, k, _, hw, hh, _⟩
      · rcases hpe with ⟨⟩
        exact ⟨hw, hh⟩
      · exact ⟨hw, hh⟩
    have hcore2 : coreState st2 = coreState st := by
      have : coreState (r, st2).2 = coreState st2 := rfl
      rw [← this, hcore]; rfl
    simp only [coreState, Prod.mk.injEq] at hcore2
    obtain ⟨hsw, hrp, hfb, hdc, hwf, hcb, hfl, hpc, hrc, hsi⟩ := hcore2
    have htr2 : st2.trace = st.trace ++
        (Event.pollFramebufferSize (env.polls st.pollIdx).1
          (env.polls st.pollIdx).2 :: tail) := by
      have h1 : (r, st2).2.trace = st2.trace := rfl
      rw [← h1, htr]
      simp [emit]
    refine ⟨w0, h0, Event.pollFramebufferSize (env.polls st.pollIdx).1
        (env.polls st.pollIdx).2 :: tail, hnz.1, hnz.2,
      ?_, ?_, ?_, ?_, ?_, ?_, ?_, ?_, ?_, ?_, ?_, ?_⟩
    · intro e he
      rw [List.mem_cons] at he
      rcases he with rfl | he
      · rfl
      exact hall e he
    · rw [hst', resizeRest_swapchain]
    · rw [hst', resizeRest_drawCmdBuffers]
    · rw [hst', resizeRest_framebuffers, hrp]
    · rw [hst', resizeRest_renderPass, hrp]
    · rw [hst', resizeRest_submitInfo, hsi]
    · rw [hst', resizeRest_presentComplete, hpc]
    · rw [hst', resizeRest_renderComplete, hrc]
    · rw [hst', resizeRest_currentBuffer, hcb]
    · rw [hst', resizeRest_waitFences, hwf]
    · rw [hst', resizeRest_flag, hfl]
    · rw [hst', resizeRest_trace, htr2, hfb, hdc]

/-- A blocked ResizeWindow run (stuck in the busy-wait) has changed
nothing except appending poll events to the trace. -/
theorem ResizeWindow_blocked_shape (env : Env) (st st' : VkState)
    (h : ResizeWindow env st = .blocked st') :
    coreState st' = coreState st ∧
    ∃ ptail, st'.trace = st.trace ++ ptail ∧
      ∀ e ∈ ptail, isPollEvent e = true := by
  rw [ResizeWindow_eq] at h
  obtain ⟨tail, hcore, htr, hall⟩ := sizeWaitLoop_shape env.polls env.fuel
    (env.polls st.pollIdx).1 (env.polls st.pollIdx).2
    (emit { st with pollIdx := st.pollIdx + 1 }
      (.pollFramebufferSize (env.polls st.pollIdx).1 (env.polls st.pollIdx).2))
  rcases hloop : sizeWaitLoop env.polls env.fuel
      (env.polls st.pollIdx).1 (env.polls st.pollIdx).2
      (emit { st with pollIdx := st.pollIdx + 1 }
        (.pollFramebufferSize (env.polls st.pollIdx).1 (env.polls st.pollIdx).2))
    with ⟨r, st2⟩
  rw [hloop] at h hcore htr
  match r with
  | some (w0, h0) => simp at h
  | none =>
    simp only at h
    have hst' : st' = st2 := by cases h; rfl
    subst hst'
    constructor
    · rw [hcore]; rfl
    · refine ⟨Event.pollFramebufferSize (env.polls st.pollIdx).1
        (env.polls st.pollIdx).2 :: tail, ?_, ?_⟩
      · rw [htr]; simp [emit]
      · intro e he
        rw [List.mem_cons] at he
        rcases he with rfl | he
        · rfl
        exact hall e he

/-- A completed ResizeWindow run recreated the swapchain at the size given
by the first poll (from the entry cursor) that was nonzero in both
dimensions; all polls before it reported zero in some dimension. -/
theorem ResizeWindow_done_firstPoll (env : Env) (st st' : VkState)
    (h : ResizeWindow env st = .done st') :
    ∃ k,
      (env.polls (st.pollIdx + k)).1 ≠ 0 ∧
      (env.polls (st.pollIdx + k)).2 ≠ 0 ∧
      (∀ j < k, (env.polls (st.pollIdx + j)).1 = 0 ∨
        (env.polls (st.pollIdx + j)).2 = 0) ∧
      st'.swapchain = Swapchain.create env.caps
        (env.polls (st.pollIdx + k)).1 (env.polls (st.pollIdx + k)).2 := by
  rw [ResizeWindow_eq] at h
  rcases hloop : sizeWaitLoop env.polls env.fuel
      (env.polls st.pollIdx).1 (env.polls st.pollIdx).2
      (emit { st with pollIdx := st.pollIdx + 1 }
        (.pollFramebufferSize (env.polls st.pollIdx).1 (env.polls st.pollIdx).2))
    with ⟨r, st2⟩
  rw [hloop] at h
  match r with
  | none => simp at h
  | some (w0, h0) =>
    simp only at h
    have hst' : st' = resizeRest env.caps w0 h0 st2 := by cases h; rfl
    have hidx : (emit { st with pollIdx := st.pollIdx + 1 }
        (.pollFramebufferSize (env.polls st.pollIdx).1
          (env.polls st.pollIdx).2)).pollIdx = st.pollIdx + 1 := rfl
    rcases sizeWaitLoop_some env.polls env.fuel
        (env.polls st.pollIdx).1 (env.polls st.pollIdx).2
        (emit { st with pollIdx := st.pollIdx + 1 }
          (.pollFramebufferSize (env.polls st.pollIdx).1
            (env.polls st.pollIdx).2))
        (w0, h0) st2 hloop with
      ⟨hw, hh, hpe⟩ | ⟨hz, k, hk, hw, hh, hbefore⟩
    · refine ⟨0, ?_, ?_, by omega, ?_⟩
      · rcases hpe with ⟨⟩
        simpa using hw
      · rcases hpe with ⟨⟩
        simpa using hh
      · rcases hpe with ⟨⟩
        rw [hst', resizeRest_swapchain]
        simp
    · rw [hidx] at hk hbefore
      refine ⟨k + 1, ?_, ?_, ?_, ?_⟩
      · have harith : st.pollIdx + (k + 1) = st.pollIdx + 1 + k := by omega
        rw [harith, hk]
        exact hw
      · have harith : st.pollIdx + (k + 1) = st.pollIdx + 1 + k := by omega
        rw [harith, hk]
        exact hh
      · intro j hj
        match j with
        | 0 => simpa using hz
        | j + 1 =>
          have := hbefore j (by omega)
          have harith : st.pollIdx + 1 + j = st.pollIdx + (j + 1) := by omega
          rwa [harith] at this
      · have harith : st.pollIdx + (k + 1) = st.pollIdx + 1 + k := by omega
        rw [hst', resizeRest_swapchain, harith, hk]

theorem semState_of_coreState {a b : VkState}
    (h : coreState a = coreState b) : semState a = semState b := by
  simp only [coreState, Prod.mk.injEq] at h
  obtain ⟨_, _, _, _, _, _, _, hpc, hrc, hsi⟩ := h
  simp [semState, hpc, hrc, hsi]

theorem flag_of_coreState {a b : VkState}
    (h : coreState a = coreState b) :
    a.isFramebufferResized = b.isFramebufferResized := by
  simp only [coreState, Prod.mk.injEq] at h
  exact h.2.2.2.2.2.2.1

/-- ResizeWindow never touches the semaphores or the submit-info
wait/signal/stage fields. -/
theorem semState_ResizeWindow (env : Env) (st : VkState) :
    semState (ResizeWindow env st).state = semState st := by
  rcases hr : ResizeWindow env st with st' | st'
  · obtain ⟨w0, h0, ptail, _, _, _, _, _, _, _, hsi, hpc, hrc, _, _, _, _⟩ :=
      ResizeWindow_done_shape env st st' hr
    simp [RWOut.state, semState, hsi, hpc, hrc]
  · obtain ⟨hcore, _⟩ := ResizeWindow_blocked_shape env st st' hr
    exact semState_of_coreState hcore

/-- ResizeWindow never touches the external resize flag. -/
theorem flag_ResizeWindow (env : Env) (st : VkState) :
    (ResizeWindow env st).state.isFramebufferResized =
      st.isFramebufferResized := by
  rcases hr : ResizeWindow env st with st' | st'
  · obtain ⟨w0, h0, ptail, _, _, _, _, _, _, _, _, _, _, _, _, hfl, _⟩ :=
      ResizeWindow_done_shape env st st' hr
    exact hfl
  · obtain ⟨hcore, _⟩ := ResizeWindow_blocked_shape env st st' hr
    exact flag_of_coreState hcore

/-- PrepareFrame (acquisition and, on staleness, the resize) never touches
the semaphores or the submit-info wait/signal/stage fields. -/
theorem semState_PrepareFrame (env : Env) (st : VkState) :
    semState (PrepareFrame env st).state = semState st := by
  cases hres : env.acquireRes <;>
    simp only [PrepareFrame, AcquiredNextImage, hres] <;>
    simp only [reduceCtorEq, or_self, or_false, false_or, if_true, if_false,
      reduceIte]
  case success => rfl
  case errDeviceLost => rfl
  case errOutOfDateKHR =>
    rcases hrw : ResizeWindow env (emit st (.acquireNextImage env.acquireRes))
      with st2 | st2 <;> rw [hres] at hrw
    all_goals
      have hsem := semState_ResizeWindow env
        (emit st (.acquireNextImage .errOutOfDateKHR))
      rw [hrw] at hsem
      simp only [hrw, RWOut.state, Outcome.state] at hsem ⊢
      exact hsem
  case suboptimalKHR =>
    rcases hrw : ResizeWindow env { emit st (.acquireNextImage env.acquireRes)
        with currentBuffer := env.acquireIdx }
      with st2 | st2 <;> rw [hres] at hrw
    all_goals
      have hsem := semState_ResizeWindow env
        { emit st (.acquireNextImage .suboptimalKHR) with
            currentBuffer := env.acquireIdx }
      rw [hrw] at hsem
      simp only [hrw, RWOut.state, Outcome.state] at hsem ⊢
      exact hsem

/-- PrepareFrame never changes the external resize flag: the flag is not
consumed at the acquisition step. -/
theorem flag_PrepareFrame (env : Env) (st : VkState) :
    (PrepareFrame env st).state.isFramebufferResized =
      st.isFramebufferResized := by
  cases hres : env.acquireRes <;>
    simp only [PrepareFrame, AcquiredNextImage, hres] <;>
    simp only [reduceCtorEq, or_self, or_false, false_or, if_true, if_false,
      reduceIte]
  case success => rfl
  case errDeviceLost => rfl
  case errOutOfDateKHR =>
    rcases hrw : ResizeWindow env (emit st (.acquireNextImage env.acquireRes))
      with st2 | st2 <;> rw [hres] at hrw
    all_goals
      have hfl := flag_ResizeWindow env
        (emit st (.acquireNextImage .errOutOfDateKHR))
      rw [hrw] at hfl
      simp only [hrw, RWOut.state, Outcome.state] at hfl ⊢
      exact hfl
  case suboptimalKHR =>
    rcases hrw : ResizeWindow env { emit st (.acquireNextImage env.acquireRes)
        with currentBuffer := env.acquireIdx }
      with st2 | st2 <;> rw [hres] at hrw
    all_goals
      have hfl := flag_ResizeWindow env
        { emit st (.acquireNextImage .suboptimalKHR) with
            currentBuffer := env.acquireIdx }
      rw [hrw] at hfl
      simp only [hrw, RWOut.state, Outcome.state] at hfl ⊢
      exact hfl

/-- SubmitFrame (presentation and, on staleness or a pending resize flag,
the resize) never touches the semaphores or the submit-info
wait/signal/stage fields. -/
theorem semState_SubmitFrame (env : Env) (st : VkState) :
    semState (SubmitFrame env st).state = semState st := by
  have hcond : (env.presentRes = .errOutOfDateKHR ∨
      env.presentRes = .suboptimalKHR ∨
      (emit st (.queuePresent env.presentRes)).isFramebufferResized) ∨
      ¬(env.presentRes = .errOutOfDateKHR ∨
        env.presentRes = .suboptimalKHR ∨
        (emit st (.queuePresent env.presentRes)).isFramebufferResized) :=
    em _
  rcases hcond with hcond | hcond
  · simp only [SubmitFrame, QueuePresent, hcond, if_true]
    rcases hrw : ResizeWindow env
        { emit st (.queuePresent env.presentRes) with
            isFramebufferResized := false } with st2 | st2
    all_goals
      have hsem := semState_ResizeWindow env
        { emit st (.queuePresent env.presentRes) with
            isFramebufferResized := false }
      rw [hrw] at hsem
      simp only [hrw, RWOut.state, Outcome.state] at hsem ⊢
      exact hsem
  · simp only [SubmitFrame, QueuePresent, hcond, if_false]
    by_cases hs : env.presentRes = .success <;> simp [hs, Outcome.state] <;> rfl

/-- RenderFrame leaves the semaphore handles and the submit-info
wait/signal/stage fields unchanged; only the command-buffer count and
pointer fields of the submit info are rewritten. -/
theorem semState_RenderFrame (env : Env) (st : VkState) :
    semState (RenderFrame env st).state = semState st := by
  have hsem := semState_PrepareFrame env st
  rcases hpf : PrepareFrame env st with st1 | st1 | st1 <;>
    rw [hpf] at hsem <;>
    simp only [Outcome.state] at hsem <;>
    simp only [RenderFrame, hpf]
  · by_cases hs : env.submitRes = .success
    · simp only [hs, if_true]
      rw [semState_SubmitFrame]
      exact hsem
    · simp only [hs, if_false, Outcome.state]
      exact hsem
  · simp only [Outcome.state]
    exact hsem
  · simp only [Outcome.state]
    exact hsem

theorem OnPostInit_swapchain (env : Env) (st : VkState) :
    (OnPostInit env st).swapchain =
      Swapchain.create env.caps env.configWidth env.configHeight := rfl

theorem OnPostInit_drawCmdBuffers (env : Env) (st : VkState) :
    (OnPostInit env st).drawCmdBuffers =
      (Swapchain.create env.caps env.configWidth env.configHeight).images := rfl

theorem OnPostInit_renderPass (env : Env) (st : VkState) :
    (OnPostInit env st).renderPass = renderPassHandle := rfl

theorem OnPostInit_framebuffers (env : Env) (st : VkState) :
    (OnPostInit env st).framebuffers =
      (List.range (Swapchain.create env.caps env.configWidth
          env.configHeight).views).map fun i =>
        { renderPass := renderPassHandle
          width := (Swapchain.create env.caps env.configWidth
            env.configHeight).extentW
          height := (Swapchain.create env.caps env.configWidth
            env.configHeight).extentH
          colorView := i : Framebuffer } := rfl

theorem semState_OnPostInit (env : Env) (st : VkState) :
    semState (OnPostInit env st) = semState st := rfl

theorem OnPostInit_trace (env : Env) (st : VkState) :
    (OnPostInit env st).trace = st.trace ++
      [.swapchainCreate env.configWidth env.configHeight,
       .createCommandPool,
       .createCommandBuffers (Swapchain.create env.caps env.configWidth
         env.configHeight).images,
       .createFence (Swapchain.create env.caps env.configWidth
         env.configHeight).images,
       .setupDepthStencil, .setupRenderPass, .createPipelineCache,
       .setupFramebuffers (Swapchain.create env.caps env.configWidth
         env.configHeight).views] := by
  simp [OnPostInit, CreateSwapchain, CreateCommandBuffers, CreateFence,
    SetupDepthStencil, SetupRenderPass, SetupFramebuffers, emit]

theorem CreateSemaphores_semState (st : VkState) :
    semState (CreateSemaphores st) =
      (presentCompleteHandle, renderCompleteHandle, 1, presentCompleteHandle,
       1, renderCompleteHandle, colorAttachmentOutputStage) := rfl

theorem CreateSemaphores_trace (st : VkState) :
    (CreateSemaphores st).trace = st.trace ++
      [.createSemaphore presentCompleteHandle,
       .createSemaphore renderCompleteHandle] := by
  simp [CreateSemaphores, emit]

/-- Unfolding equation for OnInit with the lets resolved. -/
theorem OnInit_eq (env : Env) :
    OnInit env =
      match SelectPhysicalDevice env.devices env.score with
      | none => .error (initPre env.devices.length).trace
      | some _ => .ok (OnPostInit env (CreateSemaphores
          (emit (emit (initPre env.devices.length) .createLogicalDevice)
            .getDeviceQueue))) := rfl

theorem initPre_trace (n : Nat) :
    (initPre n).trace = [.createInstance, .enumeratePhysicalDevices n] := rfl

/-- The best element picked by the scoring fold is one of the candidates. -/
theorem foldl_best_mem (score : Nat → ℚ) :
    ∀ (ds : List Nat) (d : Nat),
      ds.foldl (fun b x => if score b ≤ score x then x else b) d ∈ d :: ds := by
  intro ds
  induction ds with
  | nil => intro d; simp
  | cons x xs ih =>
    intro d
    simp only [List.foldl_cons]
    by_cases hc : score d ≤ score x
    · rw [if_pos hc]
      exact List.mem_cons_of_mem d (ih x)
    · rw [if_neg hc]
      rcases List.mem_cons.mp (ih d) with h | h
      · simp [h]
      · simp [h]

/-- A device returned by SelectPhysicalDevice is one of the enumerated
devices and its score reaches the threshold. -/
theorem SelectPhysicalDevice_some (devices : List Nat) (score : Nat → ℚ)
    (d : Nat) (h : SelectPhysicalDevice devices score = some d) :
    d ∈ devices ∧ scoreThreshold ≤ score d := by
  match devices with
  | [] => simp [SelectPhysicalDevice] at h
  | x :: xs =>
    simp only [SelectPhysicalDevice] at h
    by_cases hc : scoreThreshold ≤
        score (xs.foldl (fun b y => if score b ≤ score y then y else b) x)
    · rw [if_pos hc] at h
      have hd : (xs.foldl (fun b y => if score b ≤ score y then y else b) x)
          = d := Option.some.inj h
      rw [← hd]
      exact ⟨foldl_best_mem score xs x, hc⟩
    · rw [if_neg hc] at h
      simp at h

/-- When every enumerated device scores below the threshold (or there are
no devices at all), SelectPhysicalDevice fails its assertion. -/
theorem SelectPhysicalDevice_none_of_low (devices : List Nat)
    (score : Nat → ℚ) (hlow : ∀ d ∈ devices, score d < scoreThreshold) :
    SelectPhysicalDevice devices score = none := by
  match devices with
  | [] => rfl
  | x :: xs =>
    simp only [SelectPhysicalDevice]
    rw [if_neg]
    intro hc
    exact absurd hc (not_le.mpr
      (hlow _ (foldl_best_mem score xs x)))

/-- Poll events are not swapchain creations, semaphore operations, queue
submissions or queue idle waits. -/
theorem isPollEvent_elim (e : Event) (h : isPollEvent e = true) :
    isSwapchainCreate e = false ∧ isCreateSemaphore e = false ∧
    isDestroySemaphore e = false ∧ e ≠ .queueWaitIdle ∧
    e ≠ .queueSubmit := by
  cases e <;> simp_all [isPollEvent, isSwapchainCreate, isCreateSemaphore,
    isDestroySemaphore]

theorem pollTail_countP_create (tail : List Event)
    (h : ∀ e ∈ tail, isPollEvent e = true) :
    tail.countP isSwapchainCreate = 0 := by
  rw [List.countP_eq_zero]
  intro e he
  simp [(isPollEvent_elim e (h e he)).1]

theorem pollTail_countP_sem (tail : List Event)
    (h : ∀ e ∈ tail, isPollEvent e = true) :
    tail.countP isCreateSemaphore = 0 ∧
    tail.countP isDestroySemaphore = 0 := by
  constructor <;> rw [List.countP_eq_zero] <;> intro e he
  · simp [(isPollEvent_elim e (h e he)).2.1]
  · simp [(isPollEvent_elim e (h e he)).2.2.1]

theorem pollTail_no_queueWaitIdle (tail : List Event)
    (h : ∀ e ∈ tail, isPollEvent e = true) :
    Event.queueWaitIdle ∉ tail := by
  intro hmem
  exact (isPollEvent_elim _ (h _ hmem)).2.2.2.1 rfl

theorem resizeRestEvents_countP_create (caps : SurfaceCaps)
    (w h a b : Nat) :
    (resizeRestEvents caps w h a b).countP isSwapchainCreate = 1 := by
  simp [resizeRestEvents, List.countP_cons, isSwapchainCreate]

theorem resizeRestEvents_countP_sem (caps : SurfaceCaps) (w h a b : Nat) :
    (resizeRestEvents caps w h a b).countP isCreateSemaphore = 0 ∧
    (resizeRestEvents caps w h a b).countP isDestroySemaphore = 0 := by
  constructor <;>
    simp [resizeRestEvents, List.countP_cons, isCreateSemaphore,
      isDestroySemaphore]

theorem resizeRestEvents_no_queueWaitIdle (caps : SurfaceCaps)
    (w h a b : Nat) :
    Event.queueWaitIdle ∉ resizeRestEvents caps w h a b := by
  simp [resizeRestEvents]

/-- The exact trace of a successful OnInit run. -/
theorem OnInit_ok_trace (env : Env) (st : VkState)
    (h : OnInit env = .ok st) :
    st.trace =
      [.createInstance, .enumeratePhysicalDevices env.devices.length,
       .createLogicalDevice, .getDeviceQueue,
       .createSemaphore presentCompleteHandle,
       .createSemaphore renderCompleteHandle,
       .swapchainCreate env.configWidth env.configHeight,
       .createCommandPool,
       .createCommandBuffers (Swapchain.create env.caps env.configWidth
         env.configHeight).images,
       .createFence (Swapchain.create env.caps env.configWidth
         env.configHeight).images,
       .setupDepthStencil, .setupRenderPass, .createPipelineCache,
       .setupFramebuffers (Swapchain.create env.caps env.configWidth
         env.configHeight).views] := by
  rw [OnInit_eq] at h
  rcases hsel : SelectPhysicalDevice env.devices env.score with _ | d
  · rw [hsel] at h; simp at h
  · rw [hsel] at h
    simp only [Except.ok.injEq] at h
    rw [← h, OnPostInit_trace, CreateSemaphores_trace]
    simp [initPre, emit, VkState.empty]

/-- OnInit hands OnPostInit the state CreateSemaphores produced, so the
semaphore and submit-info fields of a successfully initialised state are
exactly those CreateSemaphores wrote. -/
theorem OnInit_ok_semState (env : Env) (st : VkState)
    (h : OnInit env = .ok st) :
    semState st = (presentCompleteHandle, renderCompleteHandle, 1,
      presentCompleteHandle, 1, renderCompleteHandle,
      colorAttachmentOutputStage) := by
  rw [OnInit_eq] at h
  rcases hsel : SelectPhysicalDevice env.devices env.score with _ | d
  · rw [hsel] at h; simp at h
  · rw [hsel] at h
    simp only [Except.ok.injEq] at h
    rw [← h, semState_OnPostInit, CreateSemaphores_semState]

/-- C1: the claim states that a frame in which acquisition returns
OutOfDate or Suboptimal issues no graphics-queue submission — drawing is
skipped and only the resize transition runs. The code violates this: the
early return inside PrepareFrame after ResizeWindow only leaves
PrepareFrame, and RenderFrame proceeds to vkQueueSubmit (and then to
QueuePresent) in that very frame. This theorem evaluates the embedded
RenderFrame on a concrete initialised state with acquisition returning
OutOfDate: the trace shows the full resize sequence followed by a
queueSubmit, a present and the queue idle wait, all in the same frame. -/
theorem c1_outOfDate_frame_still_submits :
    (RenderFrame envOutOfDate stInit).state.trace =
      stInit.trace ++
        [.acquireNextImage .errOutOfDateKHR,
         .pollFramebufferSize 800 600,
         .deviceWaitIdle,
         .swapchainCreate 800 600,
         .destroyDepthStencil,
         .setupDepthStencil,
         .destroyFramebuffers 3,
         .setupFramebuffers 3,
         .destroyCommandBuffers 3,
         .createCommandBuffers 3,
         .buildCommandBuffers,
         .deviceWaitIdle,
         .viewChanged,
         .queueSubmit,
         .queuePresent .success,
         .queueWaitIdle] := by decide

/-- C2 counterexample: the claim states that every run of the Resizing
transition (ResizeWindow) starts by clearing the external resize flag. On a
concrete run entered with the flag set (as happens on the PrepareFrame
path), ResizeWindow completes with the flag still set: ResizeWindow never
clears it. -/
theorem c2_resizeWindow_leaves_flag_set :
    (ResizeWindow envBase (OnResized stInit)).isDone = true ∧
    (ResizeWindow envBase (OnResized stInit)).state.isFramebufferResized =
      true := by decide

/-- C2 (amended): every completed run of ResizeWindow performs, in order:
busy-wait polling of the framebuffer size until it is nonzero in both
dimensions, a full device idle wait, swapchain recreation at the polled
size, depth/stencil destruction and recreation, framebuffer destruction
and recreation, draw-command-buffer destruction, reallocation and
re-recording, a second device idle wait, and the ViewChanged hook — but it
leaves the external resize flag unchanged; the flag is cleared by its
caller SubmitFrame just before the call (and not at all on the
PrepareFrame path). -/
theorem c2_resizeWindow_sequence (env : Env) (st st' : VkState)
    (h : ResizeWindow env st = .done st') :
    ∃ w0 h0 ptail,
      w0 ≠ 0 ∧ h0 ≠ 0 ∧
      (∀ e ∈ ptail, isPollEvent e = true) ∧
      st'.trace = st.trace ++ ptail ++
        resizeRestEvents env.caps w0 h0 st.framebuffers.length
          st.drawCmdBuffers ∧
      st'.isFramebufferResized = st.isFramebufferResized := by
  obtain ⟨w0, h0, ptail, hw, hh, hp, _, _, _, _, _, _, _, _, _, hfl, htr⟩ :=
    ResizeWindow_done_shape env st st' h
  exact ⟨w0, h0, ptail, hw, hh, hp, htr, hfl⟩

/-- C2 witness: the amended sequence theorem applied to a concrete
completed run. -/
theorem c2_resizeWindow_sequence_witness :
    ∃ w0 h0 ptail,
      w0 ≠ 0 ∧ h0 ≠ 0 ∧
      (∀ e ∈ ptail, isPollEvent e = true) ∧
      (ResizeWindow envBase stInit).state.trace = stInit.trace ++ ptail ++
        resizeRestEvents envBase.caps w0 h0 stInit.framebuffers.length
          stInit.drawCmdBuffers ∧
      (ResizeWindow envBase stInit).state.isFramebufferResized =
        stInit.isFramebufferResized :=
  c2_resizeWindow_sequence envBase stInit
    ((ResizeWindow envBase stInit).state) (by decide)

/-- C3: on every execution of ResizeWindow, the swapchain is recreated
only after a framebuffer-size poll that is nonzero in both dimensions:
when the run completes, exactly one creation happened, at the size of the
first nonzero poll, every earlier poll having been zero in a dimension;
when the run is still blocked in the busy-wait, no creation has been
attempted at all. -/
theorem c3_no_recreation_until_nonzero_poll (env : Env) (st : VkState) :
    (∀ st', ResizeWindow env st = .done st' →
      ∃ k, (env.polls (st.pollIdx + k)).1 ≠ 0 ∧
        (env.polls (st.pollIdx + k)).2 ≠ 0 ∧
        (∀ j < k, (env.polls (st.pollIdx + j)).1 = 0 ∨
          (env.polls (st.pollIdx + j)).2 = 0) ∧
        st'.swapchain = Swapchain.create env.caps
          (env.polls (st.pollIdx + k)).1 (env.polls (st.pollIdx + k)).2 ∧
        st'.trace.countP isSwapchainCreate =
          st.trace.countP isSwapchainCreate + 1) ∧
    (∀ st', ResizeWindow env st = .blocked st' →
      st'.trace.countP isSwapchainCreate =
        st.trace.countP isSwapchainCreate) := by
  constructor
  · intro st' h
    obtain ⟨k, hw, hh, hbefore, hsw⟩ := ResizeWindow_done_firstPoll env st st' h
    obtain ⟨w0, h0, ptail, _, _, hp, _, _, _, _, _, _, _, _, _, _, htr⟩ :=
      ResizeWindow_done_shape env st st' h
    refine ⟨k, hw, hh, hbefore, hsw, ?_⟩
    rw [htr]
    rw [List.countP_append, List.countP_append,
      pollTail_countP_create ptail hp, resizeRestEvents_countP_create]
  · intro st' h
    obtain ⟨_, ptail, htr, hp⟩ := ResizeWindow_blocked_shape env st st' h
    rw [htr, List.countP_append, pollTail_countP_create ptail hp]
    omega

/-- C3 witness: the theorem applied to a concrete completed run. -/
theorem c3_no_recreation_witness :
    ∃ k, (envBase.polls (stInit.pollIdx + k)).1 ≠ 0 ∧
      (envBase.polls (stInit.pollIdx + k)).2 ≠ 0 ∧
      (∀ j < k, (envBase.polls (stInit.pollIdx + j)).1 = 0 ∨
        (envBase.polls (stInit.pollIdx + j)).2 = 0) ∧
      (ResizeWindow envBase stInit).state.swapchain =
        Swapchain.create envBase.caps
          (envBase.polls (stInit.pollIdx + k)).1
          (envBase.polls (stInit.pollIdx + k)).2 ∧
      (ResizeWindow envBase stInit).state.trace.countP isSwapchainCreate =
        stInit.trace.countP isSwapchainCreate + 1 :=
  (c3_no_recreation_until_nonzero_poll envBase stInit).1
    ((ResizeWindow envBase stInit).state) (by decide)

/-- C4: after every frame whose presentation returns success with the
external resize flag unset, SubmitFrame performs exactly the presentation
followed by a full graphics-queue idle wait and then returns normally: the
trace of the frame ends with queueWaitIdle, so frame N's GPU work is
drained before control returns and frame N+1 can record or submit — frames
are fully serialized. -/
theorem c4_success_frame_ends_with_queue_idle (env : Env) (st : VkState)
    (hres : env.presentRes = .success)
    (hflag : st.isFramebufferResized = false) :
    SubmitFrame env st =
      .ok (emit (emit st (.queuePresent .success)) .queueWaitIdle) ∧
    (emit (emit st (.queuePresent .success)) .queueWaitIdle).trace =
      st.trace ++ [Event.queuePresent .success, Event.queueWaitIdle] ∧
    (st.trace ++ [Event.queuePresent .success, Event.queueWaitIdle]).getLast?
      = some Event.queueWaitIdle := by
  refine ⟨?_, by simp [emit], by simp⟩
  simp only [SubmitFrame, QueuePresent, hres]
  have hfl2 : (emit st (.queuePresent VkResult.success)).isFramebufferResized
      = false := by
    rw [show (emit st (.queuePresent VkResult.success)).isFramebufferResized
      = st.isFramebufferResized from rfl, hflag]
  simp [hfl2]

/-- C4 witness: the theorem applied to the concrete initialised state with
a succeeding presentation. -/
theorem c4_success_frame_witness :
    SubmitFrame envBase stInit =
      .ok (emit (emit stInit (.queuePresent .success)) .queueWaitIdle) ∧
    (emit (emit stInit (.queuePresent .success)) .queueWaitIdle).trace =
      stInit.trace ++ [Event.queuePresent .success, Event.queueWaitIdle] ∧
    (stInit.trace ++
      [Event.queuePresent .success, Event.queueWaitIdle]).getLast? =
      some Event.queueWaitIdle :=
  c4_success_frame_ends_with_queue_idle envBase stInit rfl (by decide)

/-- C5: the external resize flag is consumed at most once per frame cycle,
at the presentation step: PrepareFrame (the acquisition step, including any
resize it triggers) never changes the flag, and whenever the flag is set
when SubmitFrame presents — even with presentation succeeding — SubmitFrame
clears the flag and takes the resize transition: a normally returning frame
then has recreated the swapchain exactly once and never reached the
queue-idle wait of the non-resize path. -/
theorem c5_flag_consumed_at_present (env : Env) (st : VkState) :
    (PrepareFrame env st).state.isFramebufferResized =
      st.isFramebufferResized ∧
    (env.presentRes = .success → st.isFramebufferResized = true →
      ∀ st', SubmitFrame env st = .ok st' →
        st'.isFramebufferResized = false ∧
        ∃ tail, st'.trace = st.trace ++ tail ∧
          tail.countP isSwapchainCreate = 1 ∧
          Event.queueWaitIdle ∉ tail) := by
  refine ⟨flag_PrepareFrame env st, ?_⟩
  intro hres hflag st' h
  have hcond : ((env.presentRes = .errOutOfDateKHR ∨
      env.presentRes = .suboptimalKHR ∨
      (emit st (.queuePresent env.presentRes)).isFramebufferResized)) := by
    right; right
    rw [show (emit st (.queuePresent env.presentRes)).isFramebufferResized =
      st.isFramebufferResized from rfl]
    exact hflag
  rw [SubmitFrame] at h
  simp only [QueuePresent, hcond, if_pos] at h
  rcases hrw : ResizeWindow env
      { emit st (.queuePresent env.presentRes) with
          isFramebufferResized := false } with st2 | st2 <;>
    rw [hrw] at h
  · simp only [Outcome.ok.injEq] at h
    subst h
    obtain ⟨w0, h0, ptail, _, _, hp, _, _, _, _, _, _, _, _, _, hfl, htr⟩ :=
      ResizeWindow_done_shape env
        { emit st (.queuePresent env.presentRes) with
            isFramebufferResized := false } st2 hrw
    constructor
    · rw [hfl]
    · refine ⟨Event.queuePresent env.presentRes :: (ptail ++
        resizeRestEvents env.caps w0 h0
          (emit st (.queuePresent env.presentRes)).framebuffers.length
          (emit st (.queuePresent env.presentRes)).drawCmdBuffers), ?_, ?_, ?_⟩
      · rw [htr]
        simp [emit]
      · rw [List.countP_cons, List.countP_append,
          pollTail_countP_create ptail hp, resizeRestEvents_countP_create]
        simp [isSwapchainCreate]
      · intro hmem
        rw [List.mem_cons] at hmem
        rcases hmem with hmem | hmem
        · exact absurd hmem (by simp)
        rw [List.mem_append] at hmem
        rcases hmem with hmem | hmem
        · exact pollTail_no_queueWaitIdle ptail hp hmem
        · exact resizeRestEvents_no_queueWaitIdle _ _ _ _ _ hmem
  · simp at h

/-- C5 witness: the theorem applied to a concrete frame entered with the
flag set and a succeeding presentation. -/
theorem c5_flag_consumed_witness :
    (PrepareFrame envBase (OnResized stInit)).state.isFramebufferResized =
      (OnResized stInit).isFramebufferResized ∧
    ((SubmitFrame envBase (OnResized stInit)).state.isFramebufferResized =
      false ∧
     ∃ tail, (SubmitFrame envBase (OnResized stInit)).state.trace =
        (OnResized stInit).trace ++ tail ∧
        tail.countP isSwapchainCreate = 1 ∧
        Event.queueWaitIdle ∉ tail) :=
  ⟨(c5_flag_consumed_at_present envBase (OnResized stInit)).1,
   (c5_flag_consumed_at_present envBase (OnResized stInit)).2 rfl (by decide)
     ((SubmitFrame envBase (OnResized stInit)).state) (by decide)⟩

/-- C6: after the initial setup (a successful OnInit) and after every
completed resize (ResizeWindow), the number of framebuffers equals the
number of swapchain images and the number of swapchain image views, and
every framebuffer references the one shared render pass. -/
theorem c6_render_target_counts (env : Env) (s st st' : VkState) :
    (OnInit env = .ok st → renderTargetsConsistent st) ∧
    (ResizeWindow env s = .done st' → renderTargetsConsistent st') := by
  constructor
  · intro h
    rw [OnInit_eq] at h
    rcases hsel : SelectPhysicalDevice env.devices env.score with _ | d
    · rw [hsel] at h; simp at h
    · rw [hsel] at h
      simp only [Except.ok.injEq] at h
      subst h
      refine ⟨?_, rfl, ?_⟩
      · rw [OnPostInit_framebuffers, OnPostInit_swapchain]
        simp only [List.length_map, List.length_range]
        rfl
      · intro fb hfb
        rw [OnPostInit_framebuffers] at hfb
        rw [List.mem_map] at hfb
        obtain ⟨i, _, rfl⟩ := hfb
        rw [OnPostInit_renderPass]
  · intro h
    obtain ⟨w0, h0, ptail, _, _, _, hsw, _, hfb, hrp, _, _, _, _, _, _, _⟩ :=
      ResizeWindow_done_shape env s st' h
    refine ⟨?_, ?_, ?_⟩
    · rw [hfb, hsw]
      simp only [List.length_map, List.length_range]
      rfl
    · rw [hsw]
      rfl
    · intro fb hmem
      rw [hfb] at hmem
      rw [List.mem_map] at hmem
      obtain ⟨i, _, rfl⟩ := hmem
      rw [hrp]

/-- C6 witness: the invariant holds on the concrete initial state and on
the state after a concrete completed resize. -/
theorem c6_render_target_counts_witness :
    renderTargetsConsistent stInit ∧
    renderTargetsConsistent (ResizeWindow envBase stInit).state :=
  ⟨(c6_render_target_counts envBase stInit stInit stInit).1 (by rfl),
   (c6_render_target_counts envBase stInit stInit
     ((ResizeWindow envBase stInit).state)).2 (by decide)⟩

/-- C7: after the initial setup (a successful OnInit) and after every
completed resize (ResizeWindow), the number of draw command buffers equals
the number of swapchain images. -/
theorem c7_command_buffer_counts (env : Env) (s st st' : VkState) :
    (OnInit env = .ok st → commandBuffersConsistent st) ∧
    (ResizeWindow env s = .done st' → commandBuffersConsistent st') := by
  constructor
  · intro h
    rw [OnInit_eq] at h
    rcases hsel : SelectPhysicalDevice env.devices env.score with _ | d
    · rw [hsel] at h; simp at h
    · rw [hsel] at h
      simp only [Except.ok.injEq] at h
      subst h
      show (OnPostInit env _).drawCmdBuffers = (OnPostInit env _).swapchain.images
      rw [OnPostInit_drawCmdBuffers, OnPostInit_swapchain]
  · intro h
    obtain ⟨w0, h0, ptail, _, _, _, hsw, hdc, _, _, _, _, _, _, _, _, _⟩ :=
      ResizeWindow_done_shape env s st' h
    show st'.drawCmdBuffers = st'.swapchain.images
    rw [hdc, hsw]

/-- C7 witness: the invariant holds on the concrete initial state and on
the state after a concrete completed resize. -/
theorem c7_command_buffer_counts_witness :
    commandBuffersConsistent stInit ∧
    commandBuffersConsistent (ResizeWindow envBase stInit).state :=
  ⟨(c7_command_buffer_counts envBase stInit stInit stInit).1 (by rfl),
   (c7_command_buffer_counts envBase stInit stInit
     ((ResizeWindow envBase stInit).state)).2 (by decide)⟩

/-- C8: if physical-device enumeration reports zero devices, or no device
scores at or above the near-zero threshold, OnInit terminates at the
assertion (before the logical device is created: no createLogicalDevice
event is in the trace at that point); a logical device is created only
when some enumerated device scores at or above the threshold. -/
theorem c8_bootstrap_requires_device (env : Env) :
    (env.devices = [] → ∃ tr, OnInit env = .error tr ∧
      Event.createLogicalDevice ∉ tr) ∧
    ((∀ d ∈ env.devices, env.score d < scoreThreshold) →
      ∃ tr, OnInit env = .error tr ∧ Event.createLogicalDevice ∉ tr) ∧
    (∀ st, OnInit env = .ok st →
      (∃ d ∈ env.devices, scoreThreshold ≤ env.score d) ∧
      Event.createLogicalDevice ∈ st.trace) := by
  refine ⟨?_, ?_, ?_⟩
  · intro hdev
    refine ⟨(initPre env.devices.length).trace, ?_, ?_⟩
    · rw [OnInit_eq]
      have hsel : SelectPhysicalDevice env.devices env.score = none := by
        rw [hdev]; rfl
      rw [hsel]
    · rw [initPre_trace]
      simp
  · intro hlow
    refine ⟨(initPre env.devices.length).trace, ?_, ?_⟩
    · rw [OnInit_eq, SelectPhysicalDevice_none_of_low env.devices env.score hlow]
    · rw [initPre_trace]
      simp
  · intro st h
    have hsel : ∃ d, SelectPhysicalDevice env.devices env.score = some d := by
      rw [OnInit_eq] at h
      rcases hsel : SelectPhysicalDevice env.devices env.score with _ | d
      · rw [hsel] at h; simp at h
      · exact ⟨d, rfl⟩
    obtain ⟨d, hd⟩ := hsel
    obtain ⟨hmem, hscore⟩ := SelectPhysicalDevice_some env.devices env.score d hd
    refine ⟨⟨d, hmem, hscore⟩, ?_⟩
    rw [OnInit_ok_trace env st h]
    simp

/-- C8 witness: the theorem applied to a concrete environment with no
devices, one with a zero-scoring device, and the baseline environment with
a suitable device. -/
theorem c8_bootstrap_requires_device_witness :
    (∃ tr, OnInit envNoDevices = .error tr ∧
      Event.createLogicalDevice ∉ tr) ∧
    (∃ tr, OnInit envLowScore = .error tr ∧
      Event.createLogicalDevice ∉ tr) ∧
    ((∃ d ∈ envBase.devices, scoreThreshold ≤ envBase.score d) ∧
      Event.createLogicalDevice ∈ stInit.trace) :=
  ⟨(c8_bootstrap_requires_device envNoDevices).1 rfl,
   (c8_bootstrap_requires_device envLowScore).2.1 (by decide),
   (c8_bootstrap_requires_device envBase).2.2 stInit (by rfl)⟩

/-- C9: a successful OnInit creates the presentComplete and renderComplete
semaphores exactly once (two createSemaphore events, no destroySemaphore
event) and fills the submit-info template; a completed resize leaves the
semaphores and the whole submit info untouched and neither creates nor
destroys any semaphore; and across any RenderFrame — whatever the driver
results — the wait-semaphore, signal-semaphore and wait-stage fields of the
submit info and the semaphore handles are unchanged (RenderFrame rewrites
only the command-buffer count and pointer fields). -/
theorem c9_semaphores_created_once_and_reused (env : Env)
    (st s st' : VkState) :
    (OnInit env = .ok st →
      st.trace.countP isCreateSemaphore = 2 ∧
      st.trace.countP isDestroySemaphore = 0 ∧
      semState st = (presentCompleteHandle, renderCompleteHandle, 1,
        presentCompleteHandle, 1, renderCompleteHandle,
        colorAttachmentOutputStage)) ∧
    (ResizeWindow env s = .done st' →
      st'.submitInfo = s.submitInfo ∧
      st'.presentComplete = s.presentComplete ∧
      st'.renderComplete = s.renderComplete ∧
      st'.trace.countP isCreateSemaphore = s.trace.countP isCreateSemaphore ∧
      st'.trace.countP isDestroySemaphore =
        s.trace.countP isDestroySemaphore) ∧
    semState (RenderFrame env s).state = semState s := by
  refine ⟨?_, ?_, semState_RenderFrame env s⟩
  · intro h
    refine ⟨?_, ?_, OnInit_ok_semState env st h⟩ <;>
      rw [OnInit_ok_trace env st h] <;>
      simp [List.countP_cons, isCreateSemaphore, isDestroySemaphore]
  · intro h
    obtain ⟨w0, h0, ptail, _, _, hp, _, _, _, _, hsi, hpc, hrc, _, _, _, htr⟩ :=
      ResizeWindow_done_shape env s st' h
    refine ⟨hsi, hpc, hrc, ?_, ?_⟩ <;>
      rw [htr, List.countP_append, List.countP_append]
    · rw [(pollTail_countP_sem ptail hp).1,
        (resizeRestEvents_countP_sem env.caps w0 h0 s.framebuffers.length
          s.drawCmdBuffers).1]
      omega
    · rw [(pollTail_countP_sem ptail hp).2,
        (resizeRestEvents_countP_sem env.caps w0 h0 s.framebuffers.length
          s.drawCmdBuffers).2]
      omega

/-- C9 witness: the theorem applied to the concrete initialised state and
a concrete completed resize. -/
theorem c9_semaphores_witness :
    (stInit.trace.countP isCreateSemaphore = 2 ∧
     stInit.trace.countP isDestroySemaphore = 0 ∧
     semState stInit = (presentCompleteHandle, renderCompleteHandle, 1,
       presentCompleteHandle, 1, renderCompleteHandle,
       colorAttachmentOutputStage)) ∧
    ((ResizeWindow envBase stInit).state.submitInfo = stInit.submitInfo ∧
     (ResizeWindow envBase stInit).state.presentComplete =
       stInit.presentComplete ∧
     (ResizeWindow envBase stInit).state.renderComplete =
       stInit.renderComplete ∧
     (ResizeWindow envBase stInit).state.trace.countP isCreateSemaphore =
       stInit.trace.countP isCreateSemaphore ∧
     (ResizeWindow envBase stInit).state.trace.countP isDestroySemaphore =
       stInit.trace.countP isDestroySemaphore) ∧
    semState (RenderFrame envBase stInit).state = semState stInit :=
  ⟨(c9_semaphores_created_once_and_reused envBase stInit stInit
      ((ResizeWindow envBase stInit).state)).1 (by rfl),
   (c9_semaphores_created_once_and_reused envBase stInit stInit
      ((ResizeWindow envBase stInit).state)).2.1 (by decide),
   (c9_semaphores_created_once_and_reused envBase stInit stInit
      ((ResizeWindow envBase stInit).state)).2.2⟩

/-- C10 counterexample: the claim states that whenever the file can be
opened, Json::Parse returns some parsed value rather than nullopt. On a
file system whose config file opens fine but holds malformed JSON, Parse
returns neither nullopt nor a value: the parse error raised by the stream
operator propagates out (as an exception, modelled by the Except error). -/
theorem c10_parse_malformed_file_raises :
    fsBad "config.json" ≠ none ∧
    Json.Parse fsBad "config.json" = .error .malformed := by
  constructor
  · intro h
    simp [fsBad] at h
  · rfl

/-- C10 (amended): Json::Parse returns nullopt exactly when the file
cannot be opened; when the file opens and its contents parse, it returns
the parsed value; when the file opens but its contents are malformed, the
parse error propagates as an exception rather than through the optional
return value. -/
theorem c10_parse_optional_contract (fs : FileSys) (path : String) :
    (Json.Parse fs path = .ok none ↔ fs path = none) ∧
    (∀ j, fs path = some (.ok j) → Json.Parse fs path = .ok (some j)) ∧
    (∀ e, fs path = some (.error e) → Json.Parse fs path = .error e) := by
  refine ⟨⟨?_, ?_⟩, ?_, ?_⟩
  · intro h
    rcases hfs : fs path with _ | v
    · rfl
    · rcases v with e | j <;> rw [Json.Parse, hfs] at h <;> simp at h
  · intro h
    rw [Json.Parse, h]
  · intro j h
    rw [Json.Parse, h]
  · intro e h
    rw [Json.Parse, h]

/-- C10 witness: the amended contract applied to a concrete file system
with one well-formed config file. -/
theorem c10_parse_optional_contract_witness :
    (Json.Parse fsGood "missing.json" = .ok none ↔
      fsGood "missing.json" = none) ∧
    Json.Parse fsGood "config.json" = .ok (some (42 : Nat)) :=
  ⟨(c10_parse_optional_contract fsGood "missing.json").1,
   (c10_parse_optional_contract fsGood "config.json").2.1 (42 : Nat) (by rfl)⟩

end ReVK
